import Mathlib

/-!
# Koordinatentransformation (src/src/App.jsx)

A shallow embedding of the click handler `handleTransformation` of the React
component `KoordinatenTransformation`.  The component state is a record, the
handler is a function from the state it closes over and from the behaviour of
the network to the ordered list of effects it performs (calls of the six state
setters, the `fetch` call, the `antwort.json()` call).  The state after the handler
has finished is obtained by replaying the setter calls on the prior state.
-/

namespace KoordinatenTransformation

/-- A JavaScript value as far as the handler can observe one: the values
`JSON.parse` can produce, plus `undefined`.  The handler never computes with a
number, so a number is carried by its rational value. -/
inductive JsVal where
  | undefined : JsVal
  | null : JsVal
  | bool (b : Bool) : JsVal
  | num (q : ℚ) : JsVal
  | str (s : String) : JsVal
  | arr (xs : List JsVal) : JsVal
  | obj (fields : List (String × JsVal)) : JsVal

/-- The members of a parsed JSON object are listed in source order; as in
`JSON.parse`, a later member with the same key replaces an earlier one. -/
def ownProp (fields : List (String × JsVal)) (key : String) : Option JsVal :=
  fields.reverse.lookup key

/-- Property read `v.key` for the keys `easting` and `northing`: reading a
property of `null` or `undefined` throws a TypeError (`none`); a primitive, an
array or an object without that own property yields `undefined`. -/
def getProp (v : JsVal) (key : String) : Option JsVal :=
  match v with
  | .undefined => none
  | .null => none
  | .obj fields => some ((ownProp fields key).getD .undefined)
  | _ => some .undefined

/-- Outcome of `await antwort.json()`: the promise rejects, or it resolves
with the parsed value. -/
inductive JsonOutcome where
  | rejects : JsonOutcome
  | resolves (daten : JsVal) : JsonOutcome

/-- Outcome of `await fetch(...)`: the promise rejects (network failure), or it
resolves with a response whose `ok` flag and body are given. -/
inductive FetchOutcome where
  | rejects : FetchOutcome
  | resolves (ok : Bool) (body : JsonOutcome) : FetchOutcome

/-- The six `useState` cells of the component (lines 22-27). -/
structure State where
  dienst : String
  ostwert : String
  nordwert : String
  transformierteX : JsVal
  transformierteY : JsVal
  fehler : Option String

/-- State of the component on first render (the `useState` initial values). -/
def initial : State :=
  { dienst := "LV95_NACH_WGS84", ostwert := "", nordwert := "",
    transformierteX := .str "", transformierteY := .str "", fehler := none }

/-- The effects a handler of the component can perform, in the order it performs
them: a call of one of the six state setters of lines 22-27, which are all in
scope of every handler, the `fetch` call and the `antwort.json()` call. -/
inductive Effect where
  | setDienst (v : String) : Effect
  | setOstwert (v : String) : Effect
  | setNordwert (v : String) : Effect
  | setFehler (v : Option String) : Effect
  | setTransformierteX (v : JsVal) : Effect
  | setTransformierteY (v : JsVal) : Effect
  | fetch (anfrage : String) : Effect
  | json : Effect

def URL_WGS84_NACH_LV95 : String := "https://geodesy.geo.admin.ch/reframe/wgs84tolv95"

def URL_LV95_NACH_WGS84 : String := "https://geodesy.geo.admin.ch/reframe/lv95towgs84"

def FEHLER_EINGABE : String := "Bitte geben Sie sowohl Ost- als auch Nordwert ein."

def FEHLER_TRANSFORMATION : String :=
  "Fehler bei der Transformation. Bitte versuchen Sie es erneut."

def FEHLER_UNERWARTET : String :=
  "Ein unerwarteter Fehler ist aufgetreten. Bitte versuchen Sie es später erneut."

/-- The constant `url` of lines 45-46. -/
def url (dienst : String) : String :=
  if dienst = "LV95_NACH_WGS84" then URL_LV95_NACH_WGS84 else URL_WGS84_NACH_LV95

/-- The template literal of line 51. -/
def anfrage (s : State) : String :=
  url s.dienst ++ "?easting=" ++ s.ostwert ++ "&northing=" ++ s.nordwert ++ "&format=json"

/-- Lines 63-65 once `antwort.json()` has resolved with `daten`: each setter
argument is evaluated right before its call, and a throw lands in the `catch`
block of lines 66-71. -/
def verarbeite (daten : JsVal) : List Effect :=
  match getProp daten "easting" with
  | none => [.setFehler (some FEHLER_UNERWARTET)]
  | some x =>
    .setTransformierteX x ::
      match getProp daten "northing" with
      | none => [.setFehler (some FEHLER_UNERWARTET)]
      | some y => [.setTransformierteY y]

/-- The handler of lines 35-72.  `netz` gives the outcome of `fetch` for each
request URL; `s` is the state the handler closes over. -/
def handleTransformation (netz : String → FetchOutcome) (s : State) : List Effect :=
  if s.ostwert = "" ∨ s.nordwert = "" then
    [.setFehler (some FEHLER_EINGABE)]
  else
    .setFehler none :: .fetch (anfrage s) ::
      match netz (anfrage s) with
      | .rejects => [.setFehler (some FEHLER_UNERWARTET)]
      | .resolves ok body =>
        if !ok then
          [.setFehler (some FEHLER_TRANSFORMATION)]
        else
          .json ::
            match body with
            | .rejects => [.setFehler (some FEHLER_UNERWARTET)]
            | .resolves daten => verarbeite daten

/-- The handler `handleDienstWechsel` of lines 30-32, given `event.target.value`. -/
def handleDienstWechsel (value : String) : List Effect :=
  [.setDienst value]

/-- The `onChange` handler of the easting field (line 107), given `e.target.value`. -/
def onChangeOstwert (value : String) : List Effect :=
  [.setOstwert value]

/-- The `onChange` handler of the northing field (line 114), given `e.target.value`. -/
def onChangeNordwert (value : String) : List Effect :=
  [.setNordwert value]

/-- Effect of one setter call on the state; `fetch` and `json` leave it alone. -/
def applyEffect (s : State) : Effect → State
  | .setDienst v => { s with dienst := v }
  | .setOstwert v => { s with ostwert := v }
  | .setNordwert v => { s with nordwert := v }
  | .setFehler v => { s with fehler := v }
  | .setTransformierteX v => { s with transformierteX := v }
  | .setTransformierteY v => { s with transformierteY := v }
  | .fetch _ => s
  | .json => s

/-- State of the component once the handler has finished. -/
def nachher (netz : String → FetchOutcome) (s : State) : State :=
  (handleTransformation netz s).foldl applyEffect s

/-- The request URLs among a list of effects, in order. -/
def anfragen : List Effect → List String
  | [] => []
  | .fetch u :: es => u :: anfragen es
  | _ :: es => anfragen es

/-- Whether an effect is a state update (a setter call). -/
def istSetter : Effect → Bool
  | .setDienst _ => true
  | .setOstwert _ => true
  | .setNordwert _ => true
  | .setFehler _ => true
  | .setTransformierteX _ => true
  | .setTransformierteY _ => true
  | _ => false

/-- Whether an effect reads the response body. -/
def istJson : Effect → Bool
  | .json => true
  | _ => false

/-- Whether an effect updates one of the three user inputs. -/
def setztEingabe : Effect → Bool
  | .setDienst _ => true
  | .setOstwert _ => true
  | .setNordwert _ => true
  | _ => false

/-- Whether an effect updates the first output. -/
def setztX : Effect → Bool
  | .setTransformierteX _ => true
  | _ => false

/-- Whether an effect updates the second output. -/
def setztY : Effect → Bool
  | .setTransformierteY _ => true
  | _ => false

/-- The first state update among a list of effects. -/
def ersterSetter (es : List Effect) : Option Effect :=
  es.find? istSetter

/-- A network on which every request is rejected. -/
def netzAus : String → FetchOutcome := fun _ => .rejects

/-- A network that answers every request with the given response. -/
def netzMit (ok : Bool) (body : JsonOutcome) : String → FetchOutcome :=
  fun _ => .resolves ok body

/-- A form in which the northing is filled in but the easting is not, showing
the outputs and the error of an earlier call. -/
def zustandLeer : State :=
  { dienst := "WGS84_NACH_LV95", ostwert := "", nordwert := "46.951",
    transformierteX := .num 7, transformierteY := .num 46,
    fehler := some FEHLER_UNERWARTET }

/-- A filled-in form for WGS84 to LV95, showing the outputs and the error of an
earlier call. -/
def zustandVoll : State :=
  { dienst := "WGS84_NACH_LV95", ostwert := "7.439", nordwert := "46.951",
    transformierteX := .num 7, transformierteY := .num 46,
    fehler := some FEHLER_TRANSFORMATION }

/-- Two filled-in forms with the same direction and different inputs. -/
def zustandA : State :=
  { initial with ostwert := "1&northing=2", nordwert := "3" }

def zustandB : State :=
  { initial with ostwert := "1", nordwert := "2&northing=3" }

/-! ## Case analysis of the handler -/

theorem handle_leer (netz : String → FetchOutcome) (s : State)
    (h : s.ostwert = "" ∨ s.nordwert = "") :
    handleTransformation netz s = [.setFehler (some FEHLER_EINGABE)] := by
  unfold handleTransformation
  rw [if_pos h]

theorem handle_rejects (netz : String → FetchOutcome) (s : State)
    (h1 : s.ostwert ≠ "") (h2 : s.nordwert ≠ "")
    (hn : netz (anfrage s) = .rejects) :
    handleTransformation netz s =
      [.setFehler none, .fetch (anfrage s), .setFehler (some FEHLER_UNERWARTET)] := by
  unfold handleTransformation
  rw [if_neg (by simp [h1, h2]), hn]

theorem handle_nicht_ok (netz : String → FetchOutcome) (s : State)
    (h1 : s.ostwert ≠ "") (h2 : s.nordwert ≠ "") (body : JsonOutcome)
    (hn : netz (anfrage s) = .resolves false body) :
    handleTransformation netz s =
      [.setFehler none, .fetch (anfrage s), .setFehler (some FEHLER_TRANSFORMATION)] := by
  unfold handleTransformation
  rw [if_neg (by simp [h1, h2]), hn]
  rfl

theorem handle_json_rejects (netz : String → FetchOutcome) (s : State)
    (h1 : s.ostwert ≠ "") (h2 : s.nordwert ≠ "")
    (hn : netz (anfrage s) = .resolves true .rejects) :
    handleTransformation netz s =
      [.setFehler none, .fetch (anfrage s), .json, .setFehler (some FEHLER_UNERWARTET)] := by
  unfold handleTransformation
  rw [if_neg (by simp [h1, h2]), hn]
  rfl

theorem handle_ok (netz : String → FetchOutcome) (s : State)
    (h1 : s.ostwert ≠ "") (h2 : s.nordwert ≠ "") (daten : JsVal)
    (hn : netz (anfrage s) = .resolves true (.resolves daten)) :
    handleTransformation netz s =
      .setFehler none :: .fetch (anfrage s) :: .json :: verarbeite daten := by
  unfold handleTransformation
  rw [if_neg (by simp [h1, h2]), hn]
  rfl

theorem verarbeite_obj (fields : List (String × JsVal)) :
    verarbeite (.obj fields) =
      [.setTransformierteX ((ownProp fields "easting").getD .undefined),
       .setTransformierteY ((ownProp fields "northing").getD .undefined)] := rfl

theorem verarbeite_null :
    verarbeite .null = [.setFehler (some FEHLER_UNERWARTET)] := rfl

/-- Replaying a list of effects without a call of `setDienst`, `setOstwert` or
`setNordwert` leaves the three input cells as they were. -/
theorem foldl_applyEffect_eingaben (es : List Effect) (s : State)
    (h : es.any setztEingabe = false) :
    (es.foldl applyEffect s).dienst = s.dienst ∧
    (es.foldl applyEffect s).ostwert = s.ostwert ∧
    (es.foldl applyEffect s).nordwert = s.nordwert := by
  induction es generalizing s with
  | nil => exact ⟨rfl, rfl, rfl⟩
  | cons e es ih =>
    rw [List.any_cons, Bool.or_eq_false_iff] at h
    rw [List.foldl_cons]
    obtain ⟨a, b, c⟩ := ih (applyEffect s e) h.2
    rw [a, b, c]
    cases e with
    | setDienst v => exact absurd h.1 (Bool.noConfusion)
    | setOstwert v => exact absurd h.1 (Bool.noConfusion)
    | setNordwert v => exact absurd h.1 (Bool.noConfusion)
    | setFehler v => exact ⟨rfl, rfl, rfl⟩
    | setTransformierteX v => exact ⟨rfl, rfl, rfl⟩
    | setTransformierteY v => exact ⟨rfl, rfl, rfl⟩
    | fetch u => exact ⟨rfl, rfl, rfl⟩
    | json => exact ⟨rfl, rfl, rfl⟩

/-- The input setters do change the state: the other handlers of the component
overwrite the input cell they are attached to. -/
theorem eingabe_handler_setzen (value : String) (s : State) :
    ((handleDienstWechsel value).foldl applyEffect s).dienst = value ∧
    ((onChangeOstwert value).foldl applyEffect s).ostwert = value ∧
    ((onChangeNordwert value).foldl applyEffect s).nordwert = value :=
  ⟨rfl, rfl, rfl⟩

/-- On every path through `handleTransformation` none of `setDienst`,
`setOstwert`, `setNordwert` is called. -/
theorem handle_ohne_eingabe_setter (netz : String → FetchOutcome) (s : State) :
    (handleTransformation netz s).any setztEingabe = false := by
  unfold handleTransformation
  split
  · rfl
  · cases netz (anfrage s) with
    | rejects => rfl
    | resolves ok body =>
      cases ok with
      | false => rfl
      | true =>
        cases body with
        | rejects => rfl
        | resolves daten => cases daten <;> rfl

/-- With both inputs filled in, the handler issues one request, whatever the
network does with it. -/
theorem anfragen_handle (netz : String → FetchOutcome) (s : State)
    (h1 : s.ostwert ≠ "") (h2 : s.nordwert ≠ "") :
    anfragen (handleTransformation netz s) = [anfrage s] := by
  unfold handleTransformation
  rw [if_neg (by simp [h1, h2])]
  cases netz (anfrage s) with
  | rejects => rfl
  | resolves ok body =>
    cases ok with
    | false => rfl
    | true =>
      cases body with
      | rejects => rfl
      | resolves daten => cases daten <;> rfl

/-- The handler calls `setTransformierteX` exactly when it calls
`setTransformierteY`. -/
theorem ausgaben_gemeinsam (netz : String → FetchOutcome) (s : State) :
    (handleTransformation netz s).any setztX = (handleTransformation netz s).any setztY := by
  unfold handleTransformation
  split
  · rfl
  · cases netz (anfrage s) with
    | rejects => rfl
    | resolves ok body =>
      cases ok with
      | false => rfl
      | true =>
        cases body with
        | rejects => rfl
        | resolves daten => cases daten <;> rfl

/-! ## Validation -/

/-- C1: with the easting or the northing empty the handler issues no network
request, sets the error to the validation message and leaves both outputs as
they were, whatever the direction, the prior outputs and the prior error. -/
theorem leere_eingabe_ohne_anfrage (netz : String → FetchOutcome) (s : State)
    (h : s.ostwert = "" ∨ s.nordwert = "") :
    anfragen (handleTransformation netz s) = [] ∧
    (nachher netz s).fehler = some "Bitte geben Sie sowohl Ost- als auch Nordwert ein." ∧
    (nachher netz s).transformierteX = s.transformierteX ∧
    (nachher netz s).transformierteY = s.transformierteY := by
  unfold nachher
  rw [handle_leer netz s h]
  exact ⟨rfl, rfl, rfl, rfl⟩

theorem leere_eingabe_ohne_anfrage_witness :
    (zustandLeer.ostwert = "" ∨ zustandLeer.nordwert = "") ∧
    anfragen (handleTransformation (netzMit true .rejects) zustandLeer) = [] ∧
    (nachher (netzMit true .rejects) zustandLeer).fehler
      = some "Bitte geben Sie sowohl Ost- als auch Nordwert ein." ∧
    (nachher (netzMit true .rejects) zustandLeer).transformierteX = .num 7 ∧
    (nachher (netzMit true .rejects) zustandLeer).transformierteY = .num 46 :=
  ⟨Or.inl rfl, leere_eingabe_ohne_anfrage (netzMit true .rejects) zustandLeer (Or.inl rfl)⟩

/-! ## Endpoint selection and request URL -/

/-- C2: with both inputs filled in, the one request goes to `url dienst`
followed by the query string; `url dienst` is one of the two constants for
every value of `dienst`, the LV95 to WGS84 endpoint for `LV95_NACH_WGS84`, the
WGS84 to LV95 endpoint for `WGS84_NACH_LV95`, and the two endpoints differ. -/
theorem endpunkt_nach_dienst (netz : String → FetchOutcome) (s : State)
    (h1 : s.ostwert ≠ "") (h2 : s.nordwert ≠ "") :
    anfragen (handleTransformation netz s)
      = [url s.dienst ++ "?easting=" ++ s.ostwert ++ "&northing=" ++ s.nordwert
          ++ "&format=json"] ∧
    (url s.dienst = URL_LV95_NACH_WGS84 ∨ url s.dienst = URL_WGS84_NACH_LV95) ∧
    (s.dienst = "LV95_NACH_WGS84" →
      url s.dienst = "https://geodesy.geo.admin.ch/reframe/lv95towgs84") ∧
    (s.dienst = "WGS84_NACH_LV95" →
      url s.dienst = "https://geodesy.geo.admin.ch/reframe/wgs84tolv95") ∧
    URL_LV95_NACH_WGS84 ≠ URL_WGS84_NACH_LV95 := by
  refine ⟨?_, ?_, ?_, ?_, by decide⟩
  · exact anfragen_handle netz s h1 h2
  · unfold url
    by_cases hd : s.dienst = "LV95_NACH_WGS84"
    · exact Or.inl (if_pos hd)
    · exact Or.inr (if_neg hd)
  · intro hd
    unfold url
    rw [if_pos hd]
    rfl
  · intro hd
    unfold url
    rw [hd]
    decide

theorem endpunkt_nach_dienst_witness :
    zustandVoll.ostwert ≠ "" ∧ zustandVoll.nordwert ≠ "" ∧
    url zustandVoll.dienst = "https://geodesy.geo.admin.ch/reframe/wgs84tolv95" :=
  ⟨by decide, by decide,
    (endpunkt_nach_dienst netzAus zustandVoll (by decide) (by decide)).2.2.2.1 rfl⟩

/-- C3: with both inputs non-empty text of any kind, and whatever the outcome
of the request, the handler issues exactly one request, to the selected base
URL followed by `?easting=`, the easting text, `&northing=`, the northing text
and `&format=json`, the texts being inserted unchanged. -/
theorem genau_eine_anfrage (netz : String → FetchOutcome) (s : State)
    (h1 : s.ostwert ≠ "") (h2 : s.nordwert ≠ "") :
    anfragen (handleTransformation netz s)
      = [(if s.dienst = "LV95_NACH_WGS84"
            then "https://geodesy.geo.admin.ch/reframe/lv95towgs84"
            else "https://geodesy.geo.admin.ch/reframe/wgs84tolv95")
          ++ "?easting=" ++ s.ostwert ++ "&northing=" ++ s.nordwert ++ "&format=json"] :=
  anfragen_handle netz s h1 h2

theorem genau_eine_anfrage_witness :
    zustandVoll.ostwert ≠ "" ∧ zustandVoll.nordwert ≠ "" ∧
    anfragen (handleTransformation netzAus zustandVoll)
      = ["https://geodesy.geo.admin.ch/reframe/wgs84tolv95?easting=7.439&northing=46.951&format=json"] :=
  ⟨by decide, by decide,
    (genau_eine_anfrage netzAus zustandVoll (by decide) (by decide)).trans (by decide)⟩

/-- C9: the request URL does not determine the inputs: two forms with the same
direction and different non-empty (easting, northing) pairs issue the same
request URL, since the raw text is inserted without encoding. -/
theorem anfrage_nicht_injektiv :
    zustandA.dienst = zustandB.dienst ∧
    zustandA.ostwert ≠ "" ∧ zustandA.nordwert ≠ "" ∧
    zustandB.ostwert ≠ "" ∧ zustandB.nordwert ≠ "" ∧
    (zustandA.ostwert, zustandA.nordwert) ≠ (zustandB.ostwert, zustandB.nordwert) ∧
    ∀ netz : String → FetchOutcome,
      anfragen (handleTransformation netz zustandA)
        = ["https://geodesy.geo.admin.ch/reframe/lv95towgs84?easting=1&northing=2&northing=3&format=json"] ∧
      anfragen (handleTransformation netz zustandB)
        = anfragen (handleTransformation netz zustandA) := by
  refine ⟨rfl, by decide, by decide, by decide, by decide, by decide, ?_⟩
  intro netz
  rw [anfragen_handle netz zustandA (by decide) (by decide),
    anfragen_handle netz zustandB (by decide) (by decide)]
  exact ⟨by decide, by decide⟩

/-! ## Response handling -/

/-- C4: with both inputs non-empty, a 2xx response whose JSON body has the
members easting = x and northing = y leaves transformierteX = x,
transformierteY = y and no error, whatever the outputs and the error were. -/
theorem erfolg_setzt_ausgaben (netz : String → FetchOutcome) (s : State)
    (h1 : s.ostwert ≠ "") (h2 : s.nordwert ≠ "")
    (fields : List (String × JsVal)) (x y : JsVal)
    (hn : netz (anfrage s) = .resolves true (.resolves (.obj fields)))
    (hx : ownProp fields "easting" = some x)
    (hy : ownProp fields "northing" = some y) :
    (nachher netz s).transformierteX = x ∧
    (nachher netz s).transformierteY = y ∧
    (nachher netz s).fehler = none := by
  unfold nachher
  rw [handle_ok netz s h1 h2 _ hn, verarbeite_obj, hx, hy]
  exact ⟨rfl, rfl, rfl⟩

theorem erfolg_setzt_ausgaben_witness :
    (nachher (netzMit true (.resolves (.obj
        [("easting", .num (26000001 / 10)), ("northing", .num (12000002 / 10))])))
      zustandVoll).transformierteX = .num (26000001 / 10) ∧
    (nachher (netzMit true (.resolves (.obj
        [("easting", .num (26000001 / 10)), ("northing", .num (12000002 / 10))])))
      zustandVoll).transformierteY = .num (12000002 / 10) ∧
    (nachher (netzMit true (.resolves (.obj
        [("easting", .num (26000001 / 10)), ("northing", .num (12000002 / 10))])))
      zustandVoll).fehler = none :=
  erfolg_setzt_ausgaben _ zustandVoll (by decide) (by decide) _ _ _ rfl rfl rfl

/-- C5: with both inputs non-empty, a response whose `ok` flag is false leaves
the error at the transformation-failed message and both outputs as they were,
whatever its body; the body is not read and no output setter is called. -/
theorem nicht_ok_meldet_fehler (netz : String → FetchOutcome) (s : State)
    (h1 : s.ostwert ≠ "") (h2 : s.nordwert ≠ "") (body : JsonOutcome)
    (hn : netz (anfrage s) = .resolves false body) :
    (nachher netz s).fehler
      = some "Fehler bei der Transformation. Bitte versuchen Sie es erneut." ∧
    (nachher netz s).transformierteX = s.transformierteX ∧
    (nachher netz s).transformierteY = s.transformierteY ∧
    (handleTransformation netz s).any istJson = false ∧
    (handleTransformation netz s).any setztX = false ∧
    (handleTransformation netz s).any setztY = false := by
  unfold nachher
  rw [handle_nicht_ok netz s h1 h2 body hn]
  exact ⟨rfl, rfl, rfl, rfl, rfl, rfl⟩

theorem nicht_ok_meldet_fehler_witness :
    (nachher (netzMit false (.resolves (.obj [("easting", .num 1), ("northing", .num 2)])))
      zustandVoll).fehler
      = some "Fehler bei der Transformation. Bitte versuchen Sie es erneut." ∧
    (nachher (netzMit false (.resolves (.obj [("easting", .num 1), ("northing", .num 2)])))
      zustandVoll).transformierteX = .num 7 ∧
    (nachher (netzMit false (.resolves (.obj [("easting", .num 1), ("northing", .num 2)])))
      zustandVoll).transformierteY = .num 46 :=
  have h := nicht_ok_meldet_fehler
    (netzMit false (.resolves (.obj [("easting", .num 1), ("northing", .num 2)])))
    zustandVoll (by decide) (by decide) _ rfl
  ⟨h.1, h.2.1, h.2.2.1⟩

/-- C6: with both inputs non-empty, if `fetch` rejects, or the response is ok
but reading its body as JSON rejects, or the parsed body is `null`, the error
ends as the unexpected-error message and both outputs are as they were; and in
every call the first output is set exactly when the second one is. -/
theorem ausnahme_meldet_fehler (netz : String → FetchOutcome) (s : State)
    (h1 : s.ostwert ≠ "") (h2 : s.nordwert ≠ "") :
    ((netz (anfrage s) = .rejects ∨
        netz (anfrage s) = .resolves true .rejects ∨
        netz (anfrage s) = .resolves true (.resolves .null)) →
      (nachher netz s).fehler
        = some "Ein unerwarteter Fehler ist aufgetreten. Bitte versuchen Sie es später erneut." ∧
      (nachher netz s).transformierteX = s.transformierteX ∧
      (nachher netz s).transformierteY = s.transformierteY) ∧
    (handleTransformation netz s).any setztX = (handleTransformation netz s).any setztY := by
  refine ⟨?_, ausgaben_gemeinsam netz s⟩
  unfold nachher
  rintro (hn | hn | hn)
  · rw [handle_rejects netz s h1 h2 hn]
    exact ⟨rfl, rfl, rfl⟩
  · rw [handle_json_rejects netz s h1 h2 hn]
    exact ⟨rfl, rfl, rfl⟩
  · rw [handle_ok netz s h1 h2 _ hn, verarbeite_null]
    exact ⟨rfl, rfl, rfl⟩

theorem ausnahme_meldet_fehler_witness :
    ((nachher netzAus zustandVoll).fehler
        = some "Ein unerwarteter Fehler ist aufgetreten. Bitte versuchen Sie es später erneut." ∧
      (nachher netzAus zustandVoll).transformierteX = .num 7 ∧
      (nachher netzAus zustandVoll).transformierteY = .num 46) ∧
    ((nachher (netzMit true (.resolves .null)) zustandVoll).fehler
        = some "Ein unerwarteter Fehler ist aufgetreten. Bitte versuchen Sie es später erneut." ∧
      (nachher (netzMit true (.resolves .null)) zustandVoll).transformierteX = .num 7 ∧
      (nachher (netzMit true (.resolves .null)) zustandVoll).transformierteY = .num 46) :=
  ⟨(ausnahme_meldet_fehler netzAus zustandVoll (by decide) (by decide)).1 (Or.inl rfl),
   (ausnahme_meldet_fehler (netzMit true (.resolves .null)) zustandVoll
      (by decide) (by decide)).1 (Or.inr (Or.inr rfl))⟩

/-- C8: the shape of the response is not checked.  With both inputs non-empty
and a 2xx response whose JSON object body has no member easting, the first
output becomes `undefined`, the second is taken from the body and the error
stays empty; likewise with the roles of easting and northing exchanged. -/
theorem fehlendes_feld_undefined (netz : String → FetchOutcome) (s : State)
    (h1 : s.ostwert ≠ "") (h2 : s.nordwert ≠ "")
    (fields : List (String × JsVal))
    (hn : netz (anfrage s) = .resolves true (.resolves (.obj fields))) :
    (ownProp fields "easting" = none →
      (nachher netz s).transformierteX = .undefined ∧
      (nachher netz s).transformierteY = (ownProp fields "northing").getD .undefined ∧
      (nachher netz s).fehler = none) ∧
    (ownProp fields "northing" = none →
      (nachher netz s).transformierteY = .undefined ∧
      (nachher netz s).transformierteX = (ownProp fields "easting").getD .undefined ∧
      (nachher netz s).fehler = none) := by
  unfold nachher
  rw [handle_ok netz s h1 h2 _ hn, verarbeite_obj]
  constructor
  · intro hx
    rw [hx]
    exact ⟨rfl, rfl, rfl⟩
  · intro hy
    rw [hy]
    exact ⟨rfl, rfl, rfl⟩

theorem fehlendes_feld_undefined_witness :
    ((nachher (netzMit true (.resolves (.obj [("northing", .num 1200000)])))
        zustandVoll).transformierteX = .undefined ∧
      (nachher (netzMit true (.resolves (.obj [("northing", .num 1200000)])))
        zustandVoll).transformierteY = .num 1200000 ∧
      (nachher (netzMit true (.resolves (.obj [("northing", .num 1200000)])))
        zustandVoll).fehler = none) ∧
    ((nachher (netzMit true (.resolves (.obj [("easting", .num 2600000)])))
        zustandVoll).transformierteY = .undefined ∧
      (nachher (netzMit true (.resolves (.obj [("easting", .num 2600000)])))
        zustandVoll).transformierteX = .num 2600000 ∧
      (nachher (netzMit true (.resolves (.obj [("easting", .num 2600000)])))
        zustandVoll).fehler = none) :=
  ⟨(fehlendes_feld_undefined (netzMit true (.resolves (.obj [("northing", .num 1200000)])))
      zustandVoll (by decide) (by decide) _ rfl).1 rfl,
   (fehlendes_feld_undefined (netzMit true (.resolves (.obj [("easting", .num 2600000)])))
      zustandVoll (by decide) (by decide) _ rfl).2 rfl⟩

/-! ## Order of the state updates -/

/-- C7, as stated, fails: on a form with an empty easting that still shows the
error of an earlier call, the first (and only) state update of the handler
sets the validation message; the error is not set to `null` first. -/
theorem fehler_nicht_zuerst_geleert :
    zustandLeer.fehler ≠ none ∧
    handleTransformation netzAus zustandLeer
      = [.setFehler (some "Bitte geben Sie sowohl Ost- als auch Nordwert ein.")] ∧
    ersterSetter (handleTransformation netzAus zustandLeer) ≠ some (.setFehler none) := by
  refine ⟨by decide, rfl, ?_⟩
  rw [handle_leer netzAus zustandLeer (Or.inl rfl)]
  intro h
  cases h

/-- C7, amended: the emptiness check comes first.  With both inputs non-empty
the first state update is setting the error to `null`, and it comes before the
request; with an input empty the only effect is setting the validation
message, which replaces the previous error. -/
theorem fehler_geleert_nach_pruefung (netz : String → FetchOutcome) (s : State) :
    ((s.ostwert ≠ "" ∧ s.nordwert ≠ "") →
      ersterSetter (handleTransformation netz s) = some (.setFehler none) ∧
      ∃ rest, handleTransformation netz s
        = .setFehler none :: .fetch (anfrage s) :: rest) ∧
    ((s.ostwert = "" ∨ s.nordwert = "") →
      handleTransformation netz s = [.setFehler (some FEHLER_EINGABE)] ∧
      (nachher netz s).fehler = some FEHLER_EINGABE) := by
  constructor
  · rintro ⟨h1, h2⟩
    unfold handleTransformation
    rw [if_neg (by simp [h1, h2])]
    exact ⟨rfl, _, rfl⟩
  · intro h
    unfold nachher
    rw [handle_leer netz s h]
    exact ⟨rfl, rfl⟩

theorem fehler_geleert_nach_pruefung_witness :
    (ersterSetter (handleTransformation netzAus zustandVoll) = some (.setFehler none) ∧
      ∃ rest, handleTransformation netzAus zustandVoll
        = .setFehler none :: .fetch (anfrage zustandVoll) :: rest) ∧
    (handleTransformation netzAus zustandLeer = [.setFehler (some FEHLER_EINGABE)] ∧
      (nachher netzAus zustandLeer).fehler = some FEHLER_EINGABE) :=
  ⟨(fehler_geleert_nach_pruefung netzAus zustandVoll).1 ⟨by decide, by decide⟩,
   (fehler_geleert_nach_pruefung netzAus zustandLeer).2 (Or.inl rfl)⟩

/-! ## Frame -/

/-- C10: the handler never changes the user inputs: for every form state and
every outcome of the request it calls none of `setDienst`, `setOstwert` and
`setNordwert`, although they are in its scope, so that after the call `dienst`,
`ostwert` and `nordwert` are what they were before it. -/
theorem eingaben_unveraendert (netz : String → FetchOutcome) (s : State) :
    (handleTransformation netz s).any setztEingabe = false ∧
    (nachher netz s).dienst = s.dienst ∧
    (nachher netz s).ostwert = s.ostwert ∧
    (nachher netz s).nordwert = s.nordwert :=
  ⟨handle_ohne_eingabe_setter netz s,
    foldl_applyEffect_eingaben (handleTransformation netz s) s
      (handle_ohne_eingabe_setter netz s)⟩

end KoordinatenTransformation
